import Mathlib

/-!
Shallow embedding of the CPU weigher from nova/scheduler/weights/cpu.py
(class CPUWeigher, method _weigh_object) and verification of the host
weight scoring specification against it.

Numeric conventions: host core counts, the allocation ratio and the
telemetry pool counts are embedded as rationals (Python ints/floats under
exact arithmetic); the final weight lives in the reals because the source
calls math.sqrt. Python exceptions raised by the source are made explicit
as an error type, so the scoring function returns an Except value.
-/

/-- Snapshot of one host's compute capacity (the fields of host_state the
source reads: vcpus_total, cpu_allocation_ratio, vcpus_used, host_ip). -/
structure HostState where
  vcpus_total : ℚ
  cpu_allocation_ratio : ℚ
  vcpus_used : ℚ
  host_ip : String
deriving DecidableEq

/-- Scheduling hints: the scheduler_hints mapping of weight_properties, a
dictionary from hint name (a string) to an ordered list of string values,
embedded as an association list with dict lookup semantics. -/
def SchedulerHints : Type := List (String × List String)

/-- One per-host telemetry record from the CORE_USAGE set, with the keys
the source reads: host-ip, reg-cores-avl, reg-cores-usg, green-cores-avl,
green-cores-usg. -/
structure CoreUsageRecord where
  host_ip : String
  reg_cores_avl : ℚ
  reg_cores_usg : ℚ
  green_cores_avl : ℚ
  green_cores_usg : ℚ
deriving DecidableEq

/-- A point of the two-dimensional feature space: the source builds the
dictionaries p_host, p_ref_reg and p_ref_evct with exactly these two keys. -/
structure Point where
  promise : ℚ
  deficit : ℚ
deriving DecidableEq

/-- Python exceptions the body of _weigh_object can raise, made explicit.
None of them carries a host identity or any other payload, exactly as the
unguarded source operations raise them. -/
inductive PyError where
  | keyError
  | indexError
  | zeroDivisionError
deriving DecidableEq

/-- Tuned reference point for the regular criticality class, from the
ref_vals dictionary of the source: promise 1.0, deficit 0.0625. -/
def p_ref_reg : Point := { promise := 1.0, deficit := 0.0625 }

/-- Tuned reference point for the evictable criticality class, from the
ref_vals dictionary of the source: promise 0.2, deficit 0.0. -/
def p_ref_evct : Point := { promise := 0.2, deficit := 0.0 }

/-- Reference point selection of the source:
p_ref = ref_vals['p_ref_evct'] if is_evct else ref_vals['p_ref_reg']. -/
def selectRef (is_evct : Bool) : Point :=
  if is_evct then p_ref_evct else p_ref_reg

/-- The guard of the source, line 46: not (type in hints). The bare name
type denotes the Python builtin class type (it is nowhere shadowed in the
module), so the membership test asks whether the builtin type object equals
some key of the hints dictionary. Hint names are strings, and Python
equality between the builtin type object and any str is False; this
definition renders that comparison for one key. -/
def pyBuiltinTypeEqKey (_k : String) : Bool := false

/-- Python membership test type in hints over the keys of the hints
dictionary, comparing the builtin type object against each string key. -/
def typeInHints (hints : SchedulerHints) : Bool :=
  hints.any fun kv => pyBuiltinTypeEqKey kv.1

/-- Deficit feature of the source: abs(rcpus_avl - rcpus_usg) / rcpus_avl. -/
def deficitOf (r : CoreUsageRecord) : ℚ :=
  |r.reg_cores_avl - r.reg_cores_usg| / r.reg_cores_avl

/-- Promise feature of the source: abs(gcpus_avl - gcpus_usg) / gcpus_avl. -/
def promiseOf (r : CoreUsageRecord) : ℚ :=
  |r.green_cores_avl - r.green_cores_usg| / r.green_cores_avl

/-- Euclidean distance of the source: math.sqrt(pow(dd, 2) + pow(dp, 2))
for the coordinate differences between p_host and p_ref. -/
noncomputable def euclidDistance (p_host p_ref : Point) : ℝ :=
  Real.sqrt (((p_host.deficit - p_ref.deficit) ^ 2
    + (p_host.promise - p_ref.promise) ^ 2 : ℚ) : ℝ)

/-- Criticality path of _weigh_object, source lines 52 to 92: the code that
runs when the guard not (type in hints) is false. It reads the first value
of the type hint (hints['type'][0] -- a KeyError without the key, an
IndexError on an empty value list), filters the CORE_USAGE records by the
host's ip and takes element 0 of the result (an IndexError when no record
matches; the first record when several match), computes the deficit and
promise features (an unguarded ZeroDivisionError when an available count
is zero), and returns 1 minus the Euclidean distance to the reference
point of the criticality class. -/
noncomputable def criticalityPath (host_state : HostState)
    (hints : SchedulerHints) (core_usage_set : List CoreUsageRecord) :
    Except PyError ℝ :=
  match hints.lookup "type" with
  | none => .error .keyError
  | some tvals =>
    match tvals with
    | [] => .error .indexError
    | v0 :: _ =>
      let is_evct := v0 == "evictable"
      match core_usage_set.filter fun x => x.host_ip == host_state.host_ip with
      | [] => .error .indexError
      | core_usage :: _ =>
        if core_usage.reg_cores_avl = 0 ∨ core_usage.green_cores_avl = 0 then
          .error .zeroDivisionError
        else
          let p_host : Point :=
            { promise := promiseOf core_usage, deficit := deficitOf core_usage }
          let p_ref := selectRef is_evct
          .ok (1 - euclidDistance p_host p_ref)

/-- The method _weigh_object of CPUWeigher: if the guard not (type in
hints) holds, return vcpus_total * cpu_allocation_ratio - vcpus_used
(the default free-capacity path); otherwise run the criticality path. -/
noncomputable def weighObject (host_state : HostState)
    (hints : SchedulerHints) (core_usage_set : List CoreUsageRecord) :
    Except PyError ℝ :=
  if !typeInHints hints then
    .ok ((host_state.vcpus_total * host_state.cpu_allocation_ratio
      - host_state.vcpus_used : ℚ) : ℝ)
  else
    criticalityPath host_state hints core_usage_set

/-- The default path value of _weigh_object. -/
def defaultScore (host_state : HostState) : ℚ :=
  host_state.vcpus_total * host_state.cpu_allocation_ratio
    - host_state.vcpus_used

/-- Fixture host of the specification examples: vcpus_total 10,
cpu_allocation_ratio 1.5, vcpus_used 4, host_ip 10.0.0.1. -/
def exHost : HostState := ⟨10, 1.5, 4, "10.0.0.1"⟩

/-- Fixture telemetry record matching exHost: reg-cores-avl 100,
reg-cores-usg 95, green-cores-avl 50, green-cores-usg 50 (the worked
example of the specification: deficit 0.05, promise 0.0). -/
def exRecord : CoreUsageRecord := ⟨"10.0.0.1", 100, 95, 50, 50⟩

/-- A second, different telemetry record matching the same host:
green-cores-usg 40 instead of 50, so promise is 0.2 instead of 0.0. -/
def exRecordB : CoreUsageRecord := ⟨"10.0.0.1", 100, 95, 50, 40⟩

/-- Telemetry record for exHost whose green pool available count is 0. -/
def recZeroGreen : CoreUsageRecord := ⟨"10.0.0.1", 100, 95, 0, 0⟩

/-- Telemetry record for exHost whose regular pool available count is 0. -/
def recZeroReg : CoreUsageRecord := ⟨"10.0.0.1", 0, 0, 50, 50⟩

/-- Telemetry record for exHost that sits exactly on the regular reference
point: deficit is 1/16 = 0.0625 and promise is 1/1 = 1.0. -/
def recOnRegRef : CoreUsageRecord := ⟨"10.0.0.1", 16, 15, 1, 0⟩

/-- Hints carrying a type entry whose first value is evictable. -/
def hintsEvct : SchedulerHints := [("type", ["evictable"])]

/-- Hints carrying a type entry whose first value is regular. -/
def hintsReg : SchedulerHints := [("type", ["regular"])]

/-- Hints carrying a type entry whose value list is empty. -/
def hintsEmptyType : SchedulerHints := [("type", [])]

/-- The builtin type object equals no string key, so the membership test
of the guard is false for every hints mapping: the guard always routes to
the default path. -/
theorem typeInHints_eq_false (hints : SchedulerHints) :
    typeInHints hints = false := by
  simp [typeInHints, pyBuiltinTypeEqKey]

theorem weighObject_eq_default (host_state : HostState)
    (hints : SchedulerHints) (core_usage_set : List CoreUsageRecord) :
    weighObject host_state hints core_usage_set =
      .ok ((defaultScore host_state : ℚ) : ℝ) := by
  simp [weighObject, typeInHints_eq_false, defaultScore]

/-- Successful run of the criticality path: when the type hint has a first
value, the filter leaves a first record, and both available counts of that
record are non-zero, the result is 1 minus the Euclidean distance between
the host's feature point and the reference point of the criticality
class. -/
theorem criticalityPath_formula (host_state : HostState)
    (hints : SchedulerHints) (core_usage_set : List CoreUsageRecord)
    (v0 : String) (vs : List String) (r : CoreUsageRecord)
    (rest : List CoreUsageRecord)
    (hl : hints.lookup "type" = some (v0 :: vs))
    (hf : core_usage_set.filter (fun x => x.host_ip == host_state.host_ip)
      = r :: rest)
    (hr : r.reg_cores_avl ≠ 0) (hg : r.green_cores_avl ≠ 0) :
    criticalityPath host_state hints core_usage_set =
      .ok (1 - euclidDistance { promise := promiseOf r, deficit := deficitOf r }
        (selectRef (v0 == "evictable"))) := by
  unfold criticalityPath
  rw [hl, hf]
  simp [hr, hg]

theorem euclidDistance_nonneg (p q : Point) : 0 ≤ euclidDistance p q := by
  unfold euclidDistance
  exact Real.sqrt_nonneg _

/-- Distance of the worked example record to the evictable reference
point: sqrt((0.05 - 0)^2 + (0 - 0.2)^2) = sqrt(17/400). -/
theorem euclid_exRecord_evct :
    euclidDistance { promise := promiseOf exRecord, deficit := deficitOf exRecord }
      (selectRef ("evictable" == "evictable")) =
      Real.sqrt (((17 : ℚ) / 400 : ℚ) : ℝ) := by
  rw [show selectRef ("evictable" == "evictable") = p_ref_evct from rfl]
  unfold euclidDistance
  norm_num [promiseOf, deficitOf, exRecord, p_ref_evct]

/-- Distance of the worked example record to the regular reference point:
sqrt((0.05 - 0.0625)^2 + (0 - 1)^2) = sqrt(6401/6400). -/
theorem euclid_exRecord_reg :
    euclidDistance { promise := promiseOf exRecord, deficit := deficitOf exRecord }
      (selectRef ("regular" == "evictable")) =
      Real.sqrt (((6401 : ℚ) / 6400 : ℚ) : ℝ) := by
  rw [show selectRef ("regular" == "evictable") = p_ref_reg from rfl]
  unfold euclidDistance
  norm_num [promiseOf, deficitOf, exRecord, p_ref_reg]

/-- Distance of the second example record to the evictable reference
point: sqrt((0.05 - 0)^2 + (0.2 - 0.2)^2) = sqrt(1/400). -/
theorem euclid_exRecordB_evct :
    euclidDistance { promise := promiseOf exRecordB, deficit := deficitOf exRecordB }
      (selectRef ("evictable" == "evictable")) =
      Real.sqrt (((1 : ℚ) / 400 : ℚ) : ℝ) := by
  rw [show selectRef ("evictable" == "evictable") = p_ref_evct from rfl]
  unfold euclidDistance
  norm_num [promiseOf, deficitOf, exRecordB, p_ref_evct]

/-- Evaluation of the worked evictable example: exHost with exRecord and
an evictable hint scores 1 - sqrt(17/400). -/
theorem exEvct_eval :
    criticalityPath exHost hintsEvct [exRecord] =
      .ok (1 - Real.sqrt (((17 : ℚ) / 400 : ℚ) : ℝ)) := by
  rw [criticalityPath_formula exHost hintsEvct [exRecord] "evictable" []
    exRecord [] rfl rfl (by norm_num [exRecord]) (by norm_num [exRecord]),
    euclid_exRecord_evct]

/-- Evaluation of the worked regular example: exHost with exRecord and a
regular hint scores 1 - sqrt(6401/6400). -/
theorem exReg_eval :
    criticalityPath exHost hintsReg [exRecord] =
      .ok (1 - Real.sqrt (((6401 : ℚ) / 6400 : ℚ) : ℝ)) := by
  rw [criticalityPath_formula exHost hintsReg [exRecord] "regular" []
    exRecord [] rfl rfl (by norm_num [exRecord]) (by norm_num [exRecord]),
    euclid_exRecord_reg]

/-- Every successful result of the criticality path has the shape 1 minus
a Euclidean distance. -/
theorem criticalityPath_ok_shape (host_state : HostState)
    (hints : SchedulerHints) (core_usage_set : List CoreUsageRecord) (w : ℝ)
    (h : criticalityPath host_state hints core_usage_set = .ok w) :
    ∃ p_host p_ref, w = 1 - euclidDistance p_host p_ref := by
  unfold criticalityPath at h
  split at h
  · cases h
  · split at h
    · cases h
    · split at h
      · cases h
      · split at h
        · cases h
        · injection h with h
          exact ⟨_, _, h.symm⟩

/-- C1: the specification says mode selection depends on the presence of
the hint name "type": present means criticality path. In the source the
guard tests the bare name type -- the Python builtin class, not the
string -- so even with a "type" entry present the call takes the default
free-capacity path: the code contradicts the specified mode selection. -/
theorem c1_type_hint_never_selects_criticality_path :
    hintsEvct.lookup "type" = some ["evictable"] ∧
    weighObject exHost hintsEvct [exRecord] = .ok (11 : ℝ) ∧
    weighObject exHost hintsEvct [exRecord] ≠
      criticalityPath exHost hintsEvct [exRecord] := by
  refine ⟨rfl, ?_, ?_⟩
  · rw [weighObject_eq_default]
    norm_num [defaultScore, exHost]
  · rw [weighObject_eq_default, exEvct_eval]
    intro hcontra
    injection hcontra with hcontra
    rw [show ((defaultScore exHost : ℚ) : ℝ) = 11 from by
      norm_num [defaultScore, exHost]] at hcontra
    have hs := Real.sqrt_nonneg (((17 : ℚ) / 400 : ℚ) : ℝ)
    linarith

/-- C2: with a "type" entry whose value list is empty, the claim says the
call proceeds on the criticality path treating the workload as regular
without failing. In the source the call instead takes the default path
(the builtin-type guard never sees the entry) and returns the
free-capacity score; and the criticality-path code itself, on an empty
value list, evaluates hints['type'][0] and raises IndexError instead of
treating the class as regular. -/
theorem c2_empty_type_value_list :
    hintsEmptyType.lookup "type" = some [] ∧
    weighObject exHost hintsEmptyType [exRecord] = .ok (11 : ℝ) ∧
    criticalityPath exHost hintsEmptyType [exRecord] = .error .indexError := by
  refine ⟨rfl, ?_, rfl⟩
  rw [weighObject_eq_default]
  norm_num [defaultScore, exHost]

/-- C3: the claim says zero or multiple matching CoreUsageRecords fail the
scoring call with a typed error carrying the host identity and never
silently pick a record. In the source, zero matches raise a bare
IndexError from core_usage[0] (PyError carries no identity), and two
matching records do not fail at all: the call silently returns the score
of whichever matching record is first, and swapping the two records
changes the returned score. -/
theorem c3_lookup_contract_violations :
    criticalityPath exHost hintsEvct [] = .error .indexError ∧
    criticalityPath exHost hintsEvct [exRecord, exRecordB] =
      .ok (1 - Real.sqrt (((17 : ℚ) / 400 : ℚ) : ℝ)) ∧
    criticalityPath exHost hintsEvct [exRecordB, exRecord] =
      .ok (1 - Real.sqrt (((1 : ℚ) / 400 : ℚ) : ℝ)) ∧
    (1 - Real.sqrt (((17 : ℚ) / 400 : ℚ) : ℝ) : ℝ) ≠
      1 - Real.sqrt (((1 : ℚ) / 400 : ℚ) : ℝ) := by
  refine ⟨rfl, ?_, ?_, ?_⟩
  · rw [criticalityPath_formula exHost hintsEvct [exRecord, exRecordB]
      "evictable" [] exRecord [exRecordB] rfl rfl (by norm_num [exRecord])
      (by norm_num [exRecord]), euclid_exRecord_evct]
  · rw [criticalityPath_formula exHost hintsEvct [exRecordB, exRecord]
      "evictable" [] exRecordB [exRecord] rfl rfl (by norm_num [exRecordB])
      (by norm_num [exRecordB]), euclid_exRecordB_evct]
  · intro heq
    have hlt : Real.sqrt (((1 : ℚ) / 400 : ℚ) : ℝ) <
        Real.sqrt (((17 : ℚ) / 400 : ℚ) : ℝ) := by
      apply Real.sqrt_lt_sqrt
      · push_cast
        norm_num
      · push_cast
        norm_num
    linarith

/-- C4: the claim says a zero regular-pool or green-pool available count
makes the scoring call fail explicitly as defined policy rather than by
an unguarded language-level division exception. In the source the
division abs(avl - usg) / avl is unguarded, so the call dies with the
interpreter's ZeroDivisionError (no typed policy failure, no host
identity); it does not return NaN or infinity. -/
theorem c4_unguarded_division_by_zero :
    criticalityPath exHost hintsEvct [recZeroGreen] =
      .error .zeroDivisionError ∧
    criticalityPath exHost hintsReg [recZeroReg] =
      .error .zeroDivisionError := by
  constructor
  · unfold criticalityPath
    norm_num [hintsEvct, recZeroGreen, exHost]
  · unfold criticalityPath
    norm_num [hintsReg, recZeroReg, exHost]

/-- C5: for every host state scored with hints containing no entry named
"type", the returned weight equals exactly
vcpus_total * cpu_allocation_ratio - vcpus_used. -/
theorem c5_default_path_formula (host_state : HostState)
    (hints : SchedulerHints) (core_usage_set : List CoreUsageRecord)
    (hno : hints.lookup "type" = none) :
    weighObject host_state hints core_usage_set =
      .ok ((host_state.vcpus_total * host_state.cpu_allocation_ratio
        - host_state.vcpus_used : ℚ) : ℝ) :=
  weighObject_eq_default host_state hints core_usage_set

/-- C5 witness: total 10, ratio 1.5, used 4 scores exactly 11. -/
theorem c5_default_path_formula_witness :
    ([] : SchedulerHints).lookup "type" = none ∧
    weighObject exHost [] [] = .ok (11 : ℝ) := by
  refine ⟨rfl, ?_⟩
  have h := c5_default_path_formula exHost [] [] rfl
  rw [h]
  norm_num [exHost]

/-- C6: on a criticality-path run with exactly one matching record and
both pool denominators non-zero, the returned weight equals 1 minus the
Euclidean distance between the host's feature point (deficit, promise)
and the reference point of the selected criticality class; on the worked
example host with an evictable hint the weight is 1 - sqrt(17/400), which
is within 1/10000 of 0.7938; and the weight can go negative, as the same
host scored with a regular hint shows. -/
theorem c6_criticality_weight_formula :
    (∀ (host_state : HostState) (hints : SchedulerHints)
      (core_usage_set : List CoreUsageRecord) (v0 : String)
      (vs : List String) (r : CoreUsageRecord),
      hints.lookup "type" = some (v0 :: vs) →
      core_usage_set.filter (fun x => x.host_ip == host_state.host_ip) = [r] →
      r.reg_cores_avl ≠ 0 → r.green_cores_avl ≠ 0 →
      criticalityPath host_state hints core_usage_set =
        .ok (1 - euclidDistance
          { promise := promiseOf r, deficit := deficitOf r }
          (selectRef (v0 == "evictable")))) ∧
    criticalityPath exHost hintsEvct [exRecord] =
      .ok (1 - Real.sqrt (((17 : ℚ) / 400 : ℚ) : ℝ)) ∧
    |(1 - Real.sqrt (((17 : ℚ) / 400 : ℚ) : ℝ)) - 0.7938| < 1 / 10000 ∧
    criticalityPath exHost hintsReg [exRecord] =
      .ok (1 - Real.sqrt (((6401 : ℚ) / 6400 : ℚ) : ℝ)) ∧
    1 - Real.sqrt (((6401 : ℚ) / 6400 : ℚ) : ℝ) < 0 := by
  refine ⟨fun host_state hints core_usage_set v0 vs r hl hf hr hg =>
    criticalityPath_formula host_state hints core_usage_set v0 vs r [] hl hf
      hr hg, exEvct_eval, ?_, exReg_eval, ?_⟩
  · have h1 : Real.sqrt (((17 : ℚ) / 400 : ℚ) : ℝ) < 0.20616 := by
      rw [Real.sqrt_lt' (by norm_num)]
      push_cast
      norm_num
    have h2 : (0.20615 : ℝ) < Real.sqrt (((17 : ℚ) / 400 : ℚ) : ℝ) := by
      rw [Real.lt_sqrt (by norm_num)]
      push_cast
      norm_num
    rw [abs_lt]
    constructor <;> linarith
  · have h3 : (1 : ℝ) < Real.sqrt (((6401 : ℚ) / 6400 : ℚ) : ℝ) := by
      rw [Real.lt_sqrt (by norm_num)]
      push_cast
      norm_num
    linarith

/-- C6 witness: the general formula applied to the worked example. -/
theorem c6_criticality_weight_formula_witness :
    hintsEvct.lookup "type" = some ["evictable"] ∧
    [exRecord].filter (fun x => x.host_ip == exHost.host_ip) = [exRecord] ∧
    exRecord.reg_cores_avl ≠ 0 ∧ exRecord.green_cores_avl ≠ 0 ∧
    criticalityPath exHost hintsEvct [exRecord] =
      .ok (1 - euclidDistance
        { promise := promiseOf exRecord, deficit := deficitOf exRecord }
        (selectRef ("evictable" == "evictable"))) :=
  ⟨rfl, rfl, by norm_num [exRecord], by norm_num [exRecord],
    c6_criticality_weight_formula.1 exHost hintsEvct [exRecord] "evictable"
      [] exRecord rfl rfl (by norm_num [exRecord]) (by norm_num [exRecord])⟩

/-- C7: reference point selection is deterministic and total: for every
first value of the type hint exactly one of the two reference points is
selected, and the evictable one is selected if and only if that value is
exactly the string evictable. -/
theorem c7_reference_selection_total :
    (∀ v0 : String,
      selectRef (v0 == "evictable") = p_ref_evct ∨
      selectRef (v0 == "evictable") = p_ref_reg) ∧
    (∀ v0 : String,
      selectRef (v0 == "evictable") = p_ref_evct ↔ v0 = "evictable") ∧
    p_ref_evct ≠ p_ref_reg := by
  have hne : p_ref_evct ≠ p_ref_reg := by
    intro h
    have h2 := congrArg Point.promise h
    norm_num [p_ref_evct, p_ref_reg] at h2
  refine ⟨fun v0 => ?_, fun v0 => ⟨?_, ?_⟩, hne⟩
  · by_cases h : v0 = "evictable"
    · left
      simp [selectRef, h]
    · right
      simp [selectRef, h]
  · intro hsel
    by_contra h
    rw [show selectRef (v0 == "evictable") = p_ref_reg from by
      simp [selectRef, h]] at hsel
    exact hne hsel.symm
  · intro h
    simp [selectRef, h]

/-- C7 witness: the two directions at concrete first values. -/
theorem c7_reference_selection_total_witness :
    selectRef ("evictable" == "evictable") = p_ref_evct ∧
    selectRef ("regular" == "evictable") = p_ref_reg := by
  refine ⟨(c7_reference_selection_total.2.1 "evictable").mpr rfl, ?_⟩
  rcases c7_reference_selection_total.1 "regular" with h | h
  · exact absurd ((c7_reference_selection_total.2.1 "regular").mp h)
      (by decide)
  · exact h

/-- C8: a host whose computed feature point (deficit, promise) exactly
equals the reference point of its criticality class receives a weight of
exactly 1.0. -/
theorem c8_on_reference_point_scores_one (host_state : HostState)
    (hints : SchedulerHints) (core_usage_set : List CoreUsageRecord)
    (v0 : String) (vs : List String) (r : CoreUsageRecord)
    (hl : hints.lookup "type" = some (v0 :: vs))
    (hf : core_usage_set.filter (fun x => x.host_ip == host_state.host_ip)
      = [r])
    (hr : r.reg_cores_avl ≠ 0) (hg : r.green_cores_avl ≠ 0)
    (hd : deficitOf r = (selectRef (v0 == "evictable")).deficit)
    (hp : promiseOf r = (selectRef (v0 == "evictable")).promise) :
    criticalityPath host_state hints core_usage_set = .ok (1 : ℝ) := by
  rw [criticalityPath_formula host_state hints core_usage_set v0 vs r []
    hl hf hr hg]
  rw [show euclidDistance { promise := promiseOf r, deficit := deficitOf r }
      (selectRef (v0 == "evictable")) = 0 from by
    simp [euclidDistance, hd, hp]]
  norm_num

/-- C8 witness: a record with deficit 1/16 and promise 1 sits exactly on
the regular reference point and scores exactly 1. -/
theorem c8_on_reference_point_scores_one_witness :
    deficitOf recOnRegRef = (selectRef ("regular" == "evictable")).deficit ∧
    promiseOf recOnRegRef = (selectRef ("regular" == "evictable")).promise ∧
    criticalityPath exHost hintsReg [recOnRegRef] = .ok (1 : ℝ) := by
  have hd : deficitOf recOnRegRef =
      (selectRef ("regular" == "evictable")).deficit := by
    rw [show selectRef ("regular" == "evictable") = p_ref_reg from rfl]
    norm_num [deficitOf, recOnRegRef, p_ref_reg]
  have hp : promiseOf recOnRegRef =
      (selectRef ("regular" == "evictable")).promise := by
    rw [show selectRef ("regular" == "evictable") = p_ref_reg from rfl]
    norm_num [promiseOf, recOnRegRef, p_ref_reg]
  exact ⟨hd, hp, c8_on_reference_point_scores_one exHost hintsReg
    [recOnRegRef] "regular" [] recOnRegRef rfl rfl
    (by norm_num [recOnRegRef]) (by norm_num [recOnRegRef]) hd hp⟩

/-- C9: the default path is total. For every host state and every hints
mapping with no entry named "type", the scoring call succeeds (no error
branch is reachable) and its result does not depend on the telemetry set:
no external telemetry lookup is performed. -/
theorem c9_default_path_total (host_state : HostState)
    (hints : SchedulerHints)
    (core_usage_set core_usage_set₂ : List CoreUsageRecord)
    (hno : hints.lookup "type" = none) :
    (weighObject host_state hints core_usage_set).isOk = true ∧
    weighObject host_state hints core_usage_set =
      weighObject host_state hints core_usage_set₂ := by
  rw [weighObject_eq_default, weighObject_eq_default]
  exact ⟨rfl, rfl⟩

/-- C9 witness: a concrete default-path call succeeds and ignores a change
of the telemetry set. -/
theorem c9_default_path_total_witness :
    (weighObject exHost [("other", ["x"])] []).isOk = true ∧
    weighObject exHost [("other", ["x"])] [] =
      weighObject exHost [("other", ["x"])] [exRecord] :=
  c9_default_path_total exHost [("other", ["x"])] [] [exRecord] rfl

/-- C10: every weight the criticality path returns is at most 1, because
the Euclidean distance subtracted from 1 is non-negative. -/
theorem c10_criticality_weight_at_most_one (host_state : HostState)
    (hints : SchedulerHints) (core_usage_set : List CoreUsageRecord)
    (w : ℝ)
    (h : criticalityPath host_state hints core_usage_set = .ok w) :
    w ≤ 1 := by
  obtain ⟨p_host, p_ref, rfl⟩ :=
    criticalityPath_ok_shape host_state hints core_usage_set w h
  have hd := euclidDistance_nonneg p_host p_ref
  linarith

/-- C10 witness: the worked evictable example returns a weight, and that
weight is at most 1. -/
theorem c10_criticality_weight_at_most_one_witness :
    criticalityPath exHost hintsEvct [exRecord] =
      .ok (1 - Real.sqrt (((17 : ℚ) / 400 : ℚ) : ℝ)) ∧
    (1 - Real.sqrt (((17 : ℚ) / 400 : ℚ) : ℝ) : ℝ) ≤ 1 :=
  ⟨exEvct_eval, c10_criticality_weight_at_most_one exHost hintsEvct
    [exRecord] _ exEvct_eval⟩
